import Mathlib

/-!
# Telegram ⇄ ElevenLabs bridge (`src/server.js`)

A shallow embedding of the per-message agent session (`waitForAgentResponse`),
the dispatcher (`processTelegramUpdate`) and the polling loop (`pollTelegram`).

The closure variables of one `waitForAgentResponse` call and the process-wide
`sessionByChatId` map form an explicit state; every callback registered by the
call (`ws.on(...)`, `setTimeout(...)`) becomes one case of a step function over
that state.
-/

namespace Nightingale

/-! ## JavaScript values used by the handlers -/

/-- Code points removed by `String.prototype.trim` (WhiteSpace and LineTerminator). -/
def isJsWhiteSpace (c : Char) : Bool :=
  let n := c.toNat
  n = 9 || n = 10 || n = 11 || n = 12 || n = 13 || n = 32 || n = 160 || n = 5760 ||
  (8192 ≤ n && n ≤ 8202) || n = 8232 || n = 8233 || n = 8239 || n = 8287 ||
  n = 12288 || n = 65279

/-- The method `String.prototype.trim`. -/
def jsTrim (s : String) : String :=
  String.mk ((s.data.dropWhile isJsWhiteSpace).reverse.dropWhile isJsWhiteSpace).reverse

/-- Truthiness of a string-or-undefined value: `undefined` and `''` are falsy. -/
def isTruthy : Option String → Bool
  | none => false
  | some s => s != ""

/-- The operator `a || b` on string-or-undefined values. -/
def jsOr (a b : Option String) : Option String :=
  if isTruthy a then a else b

/-! ## The process-wide session map -/

/-- The map `sessionByChatId` (line 23), kept in insertion order as a JavaScript `Map` does. -/
abbrev Store := List (String × String)

/-- The call `sessionByChatId.get(k)`. -/
def mapGet : Store → String → Option String
  | [], _ => none
  | (k0, v0) :: rest, k => if k0 = k then some v0 else mapGet rest k

/-- The call `sessionByChatId.set(k, v)`: overwrite in place, or append a new entry. -/
def mapSet : Store → String → String → Store
  | [], k, v => [(k, v)]
  | (k0, v0) :: rest, k, v => if k0 = k then (k, v) :: rest else (k0, v0) :: mapSet rest k v

/-! ## Configuration, frames, events -/

/-- The environment values the session reads (lines 9-16); `REQUEST_TIMEOUT_MS` is the
value of `Number(REQUEST_TIMEOUT_MS)`. -/
structure Config where
  ELEVENLABS_ORIGINATOR : String
  REQUEST_TIMEOUT_MS : Nat
deriving DecidableEq, Repr

/-- A JSON frame handed to `ws.send`. -/
inductive Frame where
  /-- The frame `{type: 'conversation_initiation_client_data', dynamic_variables: {channel,
  originator, chat_id}, conversation_id?}` (lines 63-79). -/
  | initiation (channel originator chat_id : String) (conversation_id : Option String)
  /-- The frame `{type: 'user_message', text}` (lines 100-103 and 124-127). -/
  | user_message (text : String)
deriving DecidableEq, Repr

/-- The fields of a decoded agent frame that the message handler reads (lines 90-117).
A field that is absent is `none`; the fields are strings, as the agent protocol sends them.
A frame that decodes to a non-object value has every field absent. -/
structure AgentEvent where
  type : Option String := none
  cimeConversationId : Option String := none
  cmeConversationId : Option String := none
  conversation_id : Option String := none
  agentResponse : Option String := none
  text : Option String := none
  message : Option String := none
deriving DecidableEq, Repr

/-- The property `ws.readyState`. -/
inductive ReadyState where
  | CONNECTING | OPEN | CLOSING | CLOSED
deriving DecidableEq, Repr

/-- The three `setTimeout` callbacks of one run. -/
inductive Timer where
  /-- The overall deadline, `timeoutId` (line 57). -/
  | deadline
  /-- The quiet-period timer, `responseTimer` (line 110). -/
  | response
  /-- The anonymous 500 ms timer (line 121). -/
  | grace
deriving DecidableEq, Repr

/-- What the runtime can deliver to one `waitForAgentResponse` run. -/
inductive Event where
  /-- The socket event `open`. -/
  | wsOpen
  /-- The socket event `message`; `none` is a payload on which `JSON.parse` throws. The
  payload `null`, on which line 91 throws a `TypeError` before any effect, is not covered. -/
  | wsMessage (data : Option AgentEvent)
  /-- The socket event `error`, with `err.message`. -/
  | wsError (err : String)
  /-- The socket event `close`, with the close code and the decoded reason buffer. -/
  | wsClose (code : Nat) (reason : Option String)
  /-- A timer callback comes due. -/
  | fire (t : Timer)
deriving DecidableEq, Repr

/-- A call of `resolve` (a reply text) or of `reject` (the message of the error). -/
inductive Outcome where
  | Reply (text : String)
  | Failure (reason : String)
deriving DecidableEq, Repr

/-! ## One `waitForAgentResponse` run -/

/-- The closure variables of one run (lines 40-44), the socket's ready state, the
process-wide map, and logs of the observable calls the run makes. -/
structure State where
  sessionByChatId : Store
  chatId : String
  text : String
  originator : String
  readyState : ReadyState
  settled : Bool
  /-- The handle `timeoutId` is pending. -/
  timeoutId : Bool
  /-- The handle `responseTimer` is pending. -/
  responseTimer : Bool
  /-- The 500 ms timer of line 121 is pending. -/
  graceTimer : Bool
  finalText : String
  userMessageSent : Bool
  /-- Frames passed to `ws.send`, in call order. -/
  wsSent : List Frame
  /-- Every `setTimeout` call: which callback and which delay, in call order. -/
  scheduled : List (Timer × Nat)
  /-- Every `resolve` or `reject` call, in call order. -/
  outcomes : List Outcome
deriving DecidableEq, Repr

/-- The method `ws.close()`: a socket that is not yet closed starts closing. -/
def wsCloseCall : ReadyState → ReadyState
  | .CLOSED => .CLOSED
  | _ => .CLOSING

/-- The closure `done` (lines 46-55); `fn` is the `resolve` or `reject` call it runs. -/
def done (s : State) (fn : Outcome) : State :=
  if s.settled then s
  else { s with
    settled := true
    timeoutId := false
    responseTimer := false
    readyState := wsCloseCall s.readyState
    outcomes := s.outcomes ++ [fn] }

/-- The text `'I am here. Can you rephrase that?'` (line 112). -/
def fallbackReply : String := "I am here. Can you rephrase that?"

/-- The expression `output || 'I am here. Can you rephrase that?'` (line 112). -/
def replyText (finalText : String) : String :=
  let output := jsTrim finalText
  if output = "" then fallbackReply else output

/-- The expression of lines 90-93. -/
def conversationIdOf (event : AgentEvent) : Option String :=
  jsOr (jsOr event.cimeConversationId event.cmeConversationId) event.conversation_id

/-- The expression of line 107. -/
def chunkOf (event : AgentEvent) : String :=
  (jsOr (jsOr event.agentResponse event.text) (some "")).getD ""

/-- The event types on which the user text is sent (line 98). -/
def isReadyType (event : AgentEvent) : Bool :=
  event.type == some "conversation_initiation_metadata" ||
  event.type == some "conversation_metadata"

/-- The `open` handler (lines 61-80). -/
def onOpen (s : State) : State :=
  let existingConversationId := mapGet s.sessionByChatId s.chatId
  let conversation_id :=
    if isTruthy existingConversationId then existingConversationId else none
  { s with wsSent := s.wsSent ++
      [Frame.initiation "telegram" s.originator s.chatId conversation_id] }

/-- The `message` handler after a successful `JSON.parse` (lines 90-118). -/
def onMessage (s : State) (event : AgentEvent) : State :=
  let conversationId := conversationIdOf event
  let s1 :=
    if isTruthy conversationId then
      { s with sessionByChatId := mapSet s.sessionByChatId s.chatId (conversationId.getD "") }
    else s
  let s2 :=
    if !s1.userMessageSent && isReadyType event then
      { s1 with userMessageSent := true, wsSent := s1.wsSent ++ [Frame.user_message s1.text] }
    else s1
  let s3 :=
    if event.type == some "agent_response" then
      { s2 with
        finalText := s2.finalText ++ chunkOf event
        responseTimer := true
        scheduled := s2.scheduled ++ [(Timer.response, 600)] }
    else s2
  if event.type == some "error" then
    done s3 (Outcome.Failure ((jsOr event.message (some "ElevenLabs returned an error")).getD ""))
  else s3

/-- The callback of the 500 ms timer (lines 121-129). -/
def onGrace (s : State) : State :=
  if !s.settled && !s.userMessageSent && s.readyState == ReadyState.OPEN then
    { s with userMessageSent := true, wsSent := s.wsSent ++ [Frame.user_message s.text] }
  else s

/-- The rejection message of the `close` handler (line 138). -/
def closeMessage (code : Nat) (reasonBuffer : Option String) : String :=
  let reason := reasonBuffer.getD ""
  "WebSocket closed before final response (code=" ++ toString code ++ ", reason=" ++
    (if reason = "" then "n/a" else reason) ++ ")"

/-- One callback of the run. The runtime's part is modelled as follows: the socket emits
`open` only on the transition from `CONNECTING` to `OPEN`, it is `CLOSED` when `close` is
emitted, and a timer callback runs only while its handle is pending (set and neither fired
nor cleared). -/
def step (s : State) : Event → State
  | .wsOpen =>
      if s.readyState = ReadyState.CONNECTING then
        onOpen { s with readyState := ReadyState.OPEN }
      else s
  | .wsMessage none => s
  | .wsMessage (some event) => onMessage s event
  | .wsError err => done s (Outcome.Failure err)
  | .wsClose code reasonBuffer =>
      let s1 := { s with readyState := ReadyState.CLOSED }
      if !s1.settled then done s1 (Outcome.Failure (closeMessage code reasonBuffer)) else s1
  | .fire .deadline =>
      if s.timeoutId then
        done { s with timeoutId := false }
          (Outcome.Failure "Timed out waiting for ElevenLabs response")
      else s
  | .fire .response =>
      if s.responseTimer then
        let s1 := { s with responseTimer := false }
        done s1 (Outcome.Reply (replyText s1.finalText))
      else s
  | .fire .grace =>
      if s.graceTimer then onGrace { s with graceTimer := false } else s

/-- The state right after the body of the promise executor has run (lines 33-59, 121):
the socket is connecting, the deadline and the 500 ms timer are pending. -/
def start (cfg : Config) (store : Store) (chatId text : String) : State :=
  { sessionByChatId := store
    chatId := chatId
    text := text
    originator := cfg.ELEVENLABS_ORIGINATOR
    readyState := ReadyState.CONNECTING
    settled := false
    timeoutId := true
    responseTimer := false
    graceTimer := true
    finalText := ""
    userMessageSent := false
    wsSent := []
    scheduled := [(Timer.deadline, cfg.REQUEST_TIMEOUT_MS), (Timer.grace, 500)]
    outcomes := [] }

/-- Deliver a list of events, in order. -/
def runEvents (s : State) (evs : List Event) : State :=
  evs.foldl step s

/-- One run of `waitForAgentResponse({ chatId, text })` (lines 31-142) under the events `evs`. -/
def waitForAgentResponse (cfg : Config) (store : Store) (chatId text : String)
    (evs : List Event) : State :=
  runEvents (start cfg store chatId text) evs

/-- What the promise settles with: the first `resolve` or `reject` call, if any. -/
def State.outcome (s : State) : Option Outcome :=
  s.outcomes.head?

/-! ## Earlier runs and the conversation id they leave behind -/

/-- One earlier call `waitForAgentResponse({ chatId, text })` with the events it was given. -/
structure Run where
  chatId : String
  text : String
  events : List Event
deriving DecidableEq, Repr

/-- The map after a sequence of runs, each awaited before the next starts (line 202). -/
def storeAfterRuns (cfg : Config) (store : Store) (runs : List Run) : Store :=
  runs.foldl (fun st r => (waitForAgentResponse cfg st r.chatId r.text r.events).sessionByChatId)
    store

/-- The conversation id an agent event reports, in the words of the specification: the first
of `conversation_initiation_metadata_event.conversation_id`,
`conversation_metadata_event.conversation_id` and `conversation_id` that holds an id
(a non-empty string). -/
def reportedId (event : AgentEvent) : Option String :=
  match event.cimeConversationId with
  | some id => if id ≠ "" then some id else
      match event.cmeConversationId with
      | some id2 => if id2 ≠ "" then some id2 else event.conversation_id.filter (· ≠ "")
      | none => event.conversation_id.filter (· ≠ "")
  | none =>
      match event.cmeConversationId with
      | some id2 => if id2 ≠ "" then some id2 else event.conversation_id.filter (· ≠ "")
      | none => event.conversation_id.filter (· ≠ "")

/-- The id a session event reports: that of a decodable `message` event, none otherwise. -/
def eventReportedId : Event → Option String
  | .wsMessage (some event) => reportedId event
  | _ => none

/-- The ids reported by a list of events, in arrival order. -/
def reportedIds (evs : List Event) : List String :=
  evs.filterMap eventReportedId

/-- The id reported by the most recent event that carried one, over the runs for chat `c`. -/
def lastReportedId (c : String) (runs : List Run) : Option String :=
  ((runs.filter (fun r => r.chatId = c)).flatMap (fun r => reportedIds r.events)).getLast?

/-- The fragment text a session event carries: that of a decodable `message` event of type
`agent_response`, none otherwise. -/
def fragmentOf : Event → Option String
  | .wsMessage (some event) =>
      if event.type == some "agent_response" then some (chunkOf event) else none
  | _ => none

/-- The texts of the `agent_response` fragments among a list of events, in arrival order. -/
def fragmentsOf (evs : List Event) : List String :=
  evs.filterMap fragmentOf

/-- The concatenation of fragment texts in arrival order. -/
def concatFragments (fragments : List String) : String :=
  fragments.foldl (fun acc chunk => acc ++ chunk) ""

/-- A session event is a decodable `message` event of a ready class (line 98). -/
def isReadyEvent : Event → Bool
  | .wsMessage (some event) => isReadyType event
  | _ => false

/-- The number of `user_message` frames among the frames passed to `ws.send`. -/
def userMessageCount (frames : List Frame) : Nat :=
  (frames.filter fun f => match f with
    | .user_message _ => true
    | _ => false).length

/-! ## The dispatcher `processTelegramUpdate` and the polling loop `pollTelegram` -/

/-- The object `message.chat`. -/
structure Chat where
  id : Option Int
deriving DecidableEq, Repr

/-- The object `update.message`. -/
structure Message where
  chat : Option Chat
  text : Option String
deriving DecidableEq, Repr

/-- One element of the `getUpdates` result. -/
structure Update where
  update_id : Nat
  message : Option Message
deriving DecidableEq, Repr

/-- What the outside world does during one `processTelegramUpdate` call: the events the agent
socket delivers, and for the n-th `sendTelegramMessage` call of the dispatch (counted from 0)
either success (`none`) or the message of the error it throws. -/
structure Env where
  events : List Event
  sendError : Nat → Option String

/-- How an `async` call ends. -/
inductive Completion where
  /-- The promise is fulfilled. -/
  | returned
  /-- The promise is rejected with an error carrying this message. -/
  | threw (message : String)
  /-- The promise never settles, because an awaited promise never does. -/
  | pending
deriving DecidableEq, Repr

/-- The observable effects of one `processTelegramUpdate` call. -/
structure Dispatch where
  sessionByChatId : Store
  /-- The `sendTelegramMessage(chatId, text)` calls, in call order. -/
  sendCalls : List (String × String)
  /-- The messages written by `console.error('Telegram handling error:', ...)`. -/
  logged : List String
  completion : Completion
deriving DecidableEq, Repr

/-- The text sent from the `catch` block (line 188). -/
def apologyText : String :=
  "Sorry, I hit an issue processing that. Please try again in a moment."

/-- The `catch` block of `processTelegramUpdate` (lines 186-189), entered with `error`, when
`sendsBefore` holds the `sendTelegramMessage` calls made so far by this dispatch. -/
def handlingError (store : Store) (chatId : String) (env : Env)
    (sendsBefore : List (String × String)) (error : String) : Dispatch :=
  { sessionByChatId := store
    sendCalls := sendsBefore ++ [(chatId, apologyText)]
    logged := [error]
    completion :=
      match env.sendError sendsBefore.length with
      | none => Completion.returned
      | some e => Completion.threw e }

/-- The `try` statement of `processTelegramUpdate` (lines 183-189) from the point where the
awaited session promise has settled with `outcome` (or never settles: `none`); `store` is the
session map the run has left. -/
def relayOutcome (store : Store) (chatId : String) (env : Env) : Option Outcome → Dispatch
  | none =>
      { sessionByChatId := store, sendCalls := [], logged := [],
        completion := Completion.pending }
  | some (Outcome.Failure reason) => handlingError store chatId env [] reason
  | some (Outcome.Reply reply) =>
      match env.sendError 0 with
      | none =>
          { sessionByChatId := store, sendCalls := [(chatId, reply)], logged := [],
            completion := Completion.returned }
      | some e => handlingError store chatId env [(chatId, reply)] e

/-- The function `processTelegramUpdate` (lines 171-190). -/
def processTelegramUpdate (cfg : Config) (store : Store) (update : Update) (env : Env) :
    Dispatch :=
  let skip : Dispatch :=
    { sessionByChatId := store, sendCalls := [], logged := [], completion := Completion.returned }
  match update.message with
  | none => skip
  | some message =>
    match message.chat with
    | none => skip
    | some chat =>
      match chat.id with
      | none => skip
      | some id =>
        if id = 0 then skip
        else
          let chatId := toString id
          let text := jsTrim ((jsOr message.text (some "")).getD "")
          if text = "" then skip
          else
            let s := waitForAgentResponse cfg store chatId text env.events
            relayOutcome s.sessionByChatId chatId env s.outcome

/-- The module-level state the polling loop works on, with logs of its observable calls. -/
structure Poller where
  /-- The variable `updateOffset` (line 25). -/
  updateOffset : Nat
  sessionByChatId : Store
  /-- The `offset` of every `getUpdates` request, in call order. -/
  requests : List Nat
  /-- The `sendTelegramMessage(chatId, text)` calls, in call order. -/
  sendCalls : List (String × String)
  /-- The messages written by `console.error('Telegram polling error:', ...)`. -/
  pollingErrors : List String
deriving DecidableEq, Repr

/-- The `for` loop of `pollTelegram` (lines 200-203) over the rest of a batch; `env` gives the
outside world for each update. The completion is `returned` when the loop runs to its end. -/
def processBatch (cfg : Config) (env : Update → Env) (p : Poller) :
    List Update → Poller × Completion
  | [] => (p, Completion.returned)
  | update :: rest =>
      let d := processTelegramUpdate cfg p.sessionByChatId update (env update)
      let p1 := { p with
        updateOffset := update.update_id + 1
        sessionByChatId := d.sessionByChatId
        sendCalls := p.sendCalls ++ d.sendCalls }
      match d.completion with
      | Completion.returned => processBatch cfg env p1 rest
      | other => (p1, other)

/-- One turn of the `while (true)` loop of `pollTelegram` (lines 194-207); `getUpdates` is the
answer of the `getUpdates` request: a batch, or the message of the error thrown. -/
def pollTurn (cfg : Config) (env : Update → Env) (getUpdates : Nat → Except String (List Update))
    (p : Poller) : Poller × Completion :=
  let p0 := { p with requests := p.requests ++ [p.updateOffset] }
  match getUpdates p.updateOffset with
  | Except.error e =>
      ({ p0 with pollingErrors := p0.pollingErrors ++ [e] }, Completion.returned)
  | Except.ok updates =>
      match processBatch cfg env p0 updates with
      | (p1, Completion.threw e) =>
          ({ p1 with pollingErrors := p1.pollingErrors ++ [e] }, Completion.returned)
      | r => r

/-- The first `turns` turns of `pollTelegram` (lines 192-209), the next turn being turn
number `n`; the `getUpdates` request of turn `k` is answered by `getUpdates k`. The loop goes
no further than a turn that never finishes. -/
def pollTelegram (cfg : Config) (env : Update → Env)
    (getUpdates : Nat → Nat → Except String (List Update)) : Nat → Nat → Poller → Poller
  | 0, _, p => p
  | turns + 1, n, p =>
      match pollTurn cfg env (getUpdates n) p with
      | (p1, Completion.pending) => p1
      | (p1, _) => pollTelegram cfg env getUpdates turns (n + 1) p1

/-! ## Invariants, and sample data for the worked examples -/

/-- Settlement bookkeeping: an unsettled run has called neither `resolve` nor `reject`, and
no run has called them more than once. -/
def SettleInv (s : State) : Prop :=
  (s.settled = false → s.outcomes = []) ∧ s.outcomes.length ≤ 1

/-- The send guard: while `userMessageSent` is false no `user_message` frame has been passed
to `ws.send`, and at most one ever is. -/
def SendInv (s : State) : Prop :=
  (s.userMessageSent = false → userMessageCount s.wsSent = 0) ∧ userMessageCount s.wsSent ≤ 1

/-- The configuration with the defaults of lines 13 and 15. -/
def defaultConfig : Config :=
  { ELEVENLABS_ORIGINATOR := "telegram-assistant", REQUEST_TIMEOUT_MS := 20000 }

/-- A `message` event of type `conversation_initiation_metadata` carrying a conversation id. -/
def readyEvent (id : String) : Event :=
  .wsMessage (some { type := some "conversation_initiation_metadata",
                     cimeConversationId := some id })

/-- A `message` event of type `agent_response` carrying a fragment. -/
def fragmentEvent (chunk : String) : Event :=
  .wsMessage (some { type := some "agent_response", agentResponse := some chunk })

/-- A `message` event of type `error` carrying a message. -/
def errorEvent (message : String) : AgentEvent :=
  { type := some "error", message := some message }

/-- Activity on the connection: an agent event, a transport error or a close. -/
def isAgentActivity : Event → Bool
  | .wsMessage _ => true
  | .wsError _ => true
  | .wsClose _ _ => true
  | _ => false

/-- Before the deadline has had an effect: unsettled with the deadline pending and no quiet
timer; or already failed by the deadline. -/
def DeadlineInv (s : State) : Prop :=
  (s.settled = false ∧ s.timeoutId = true ∧ s.responseTimer = false ∧ s.outcomes = []) ∨
  (s.settled = true ∧
    s.outcomes = [Outcome.Failure "Timed out waiting for ElevenLabs response"])

/-- A late `agent_response` message that also carries a conversation id. -/
def lateFragment : Event :=
  .wsMessage (some { type := some "agent_response", text := some " there",
                     conversation_id := some "zzz" })

/-- A settled run has called `ws.close()`: its socket is neither connecting nor open. -/
def ClosedInv (s : State) : Prop :=
  s.settled = true → s.readyState = ReadyState.CLOSING ∨ s.readyState = ReadyState.CLOSED

/-- While the 500 ms timer is pending and no ready-class event has come, the user text has
not been sent; the text to send is the one the run was called with. -/
def GraceInv (text : String) (s : State) : Prop :=
  s.text = text ∧ (s.graceTimer = true → s.userMessageSent = false)

/-- A text message with the given `update_id`, from chat 42. -/
def sampleUpdate (update_id : Nat) (text : String) : Update :=
  { update_id := update_id,
    message := some { chat := some { id := some 42 }, text := some text } }

/-- The agent answers `Hello` in two fragments and the reply is delivered. -/
def envReplied : Env :=
  { events := [Event.wsOpen, readyEvent "abc", fragmentEvent "Hel", fragmentEvent "lo",
               Event.fire Timer.response],
    sendError := fun _ => none }

/-- The agent stays silent until the deadline and the apology is delivered. -/
def envSilent : Env :=
  { events := [Event.wsOpen, Event.fire Timer.grace, Event.fire Timer.deadline],
    sendError := fun _ => none }

/-- The agent stays silent until the deadline and the chat platform refuses every send. -/
def envSilentSendFails : Env :=
  { events := [Event.wsOpen, Event.fire Timer.grace, Event.fire Timer.deadline],
    sendError := fun _ => some "Telegram API HTTP 403" }

/-- How the dispatch of an update ends. The session map it starts from plays no part in
that (`processTelegramUpdate_completion`), so the empty map stands for any. -/
def dispatchCompletion (cfg : Config) (env : Update → Env) (update : Update) : Completion :=
  (processTelegramUpdate cfg [] update (env update)).completion

/-- The state of a run without what depends on the session map. -/
def eraseStore (s : State) : State :=
  { s with sessionByChatId := [], wsSent := [] }

/-- The batch with update ids 5, 6 and 7, from chat 42. -/
def sampleBatch : List Update :=
  [sampleUpdate 5 "hi", sampleUpdate 6 "hi", sampleUpdate 7 "hi"]

/-- The module state when the process starts (lines 23 and 25). -/
def initialPoller : Poller :=
  { updateOffset := 0, sessionByChatId := [], requests := [], sendCalls := [],
    pollingErrors := [] }

/-- The first `getUpdates` request returns the sample batch, later ones return nothing. -/
def sampleGetUpdates (turn : Nat) (_offset : Nat) : Except String (List Update) :=
  if turn = 0 then Except.ok sampleBatch else Except.ok []

/-- The session for update 6 fails and the apology is delivered; the others are answered. -/
def envSixFails (update : Update) : Env :=
  if update.update_id = 6 then envSilent else envReplied

/-- The session for update 6 fails and no send for it succeeds; the others are answered. -/
def envSixThrows (update : Update) : Env :=
  if update.update_id = 6 then envSilentSendFails else envReplied

/-! ## Basic facts about runs -/

theorem runEvents_nil (s : State) : runEvents s [] = s := rfl

theorem runEvents_cons (s : State) (e : Event) (evs : List Event) :
    runEvents s (e :: evs) = runEvents (step s e) evs := rfl

theorem runEvents_append (s : State) (a b : List Event) :
    runEvents s (a ++ b) = runEvents (runEvents s a) b := by
  simp [runEvents, List.foldl_append]

theorem runEvents_snoc (s : State) (evs : List Event) (e : Event) :
    runEvents s (evs ++ [e]) = step (runEvents s evs) e := by
  simp [runEvents_append, runEvents_cons, runEvents_nil]

theorem runEvents_invariant (P : State → Prop) (hstep : ∀ s e, P s → P (step s e))
    (s : State) (evs : List Event) (h : P s) : P (runEvents s evs) := by
  induction evs generalizing s with
  | nil => simpa [runEvents] using h
  | cons e rest ih => exact ih (step s e) (hstep s e h)

/-! ## Settlement -/

theorem done_settleInv (s : State) (o : Outcome) (h : SettleInv s) : SettleInv (done s o) := by
  unfold SettleInv done at *
  split_ifs with hs
  · exact h
  · simp at hs
    simp [h.1 hs]

theorem step_settleInv (s : State) (e : Event) (h : SettleInv s) : SettleInv (step s e) := by
  cases e with
  | wsOpen =>
      simp only [step]; split_ifs
      · simpa [SettleInv, onOpen] using h
      · exact h
  | wsMessage d =>
      cases d with
      | none => simpa [step] using h
      | some ev =>
          simp only [step, onMessage]
          split_ifs <;>
            first
              | (apply done_settleInv; simpa [SettleInv] using h)
              | (simpa [SettleInv] using h)
  | wsError err => exact done_settleInv _ _ h
  | wsClose code r =>
      simp only [step]
      split_ifs
      · apply done_settleInv; simpa [SettleInv] using h
      · simpa [SettleInv] using h
  | fire t =>
      cases t <;> simp only [step, onGrace] <;> split_ifs <;>
        first
          | (apply done_settleInv; simpa [SettleInv] using h)
          | (simpa [SettleInv] using h)

theorem start_settleInv (cfg : Config) (store : Store) (chatId text : String) :
    SettleInv (start cfg store chatId text) := by
  simp [SettleInv, start]

theorem run_settleInv (cfg : Config) (store : Store) (chatId text : String) (evs : List Event) :
    SettleInv (waitForAgentResponse cfg store chatId text evs) :=
  runEvents_invariant SettleInv step_settleInv _ evs (start_settleInv cfg store chatId text)

/-- A settled run stays settled and calls neither `resolve` nor `reject` again. -/
theorem step_of_settled (s : State) (e : Event) (h : s.settled = true) :
    (step s e).settled = true ∧ (step s e).outcomes = s.outcomes := by
  cases e with
  | wsOpen => simp only [step]; split_ifs <;> simp [onOpen, h]
  | wsMessage d =>
      cases d with
      | none => simp [step, h]
      | some ev => simp only [step, onMessage, done]; split_ifs <;> simp_all
  | wsError err => simp [step, done, h]
  | wsClose code r => simp [step, done, h]
  | fire t => cases t <;> simp only [step, onGrace, done] <;> split_ifs <;> simp_all

theorem runEvents_of_settled (s : State) (evs : List Event) (h : s.settled = true) :
    (runEvents s evs).settled = true ∧ (runEvents s evs).outcomes = s.outcomes := by
  induction evs generalizing s with
  | nil => exact ⟨h, rfl⟩
  | cons e rest ih =>
      have h1 := step_of_settled s e h
      have h2 := ih (step s e) h1.1
      exact ⟨h2.1, h2.2.trans h1.2⟩

/-- Once a step has run while unsettled and left the run unsettled, it was unsettled before. -/
theorem settled_of_step_unsettled (s : State) (e : Event) (h : (step s e).settled = false) :
    s.settled = false := by
  by_contra hc
  simp at hc
  have := (step_of_settled s e hc).1
  simp [this] at h

/-! ## The user message -/

theorem userMessageCount_append (a b : List Frame) :
    userMessageCount (a ++ b) = userMessageCount a + userMessageCount b := by
  simp [userMessageCount]

theorem userMessageCount_initiation (a b c : String) (d : Option String) :
    userMessageCount [Frame.initiation a b c d] = 0 := rfl

theorem userMessageCount_user_message (t : String) :
    userMessageCount [Frame.user_message t] = 1 := rfl

theorem step_sendInv (s : State) (e : Event) (h : SendInv s) : SendInv (step s e) := by
  obtain ⟨h0, h1⟩ := h
  cases e with
  | wsOpen =>
      simp only [step]; split_ifs
      · simpa [SendInv, onOpen, userMessageCount_append, userMessageCount_initiation]
          using ⟨h0, h1⟩
      · exact ⟨h0, h1⟩
  | wsMessage d =>
      cases d with
      | none => simpa [step] using ⟨h0, h1⟩
      | some ev =>
          simp only [step, onMessage, done, SendInv]
          split_ifs <;>
            simp_all [userMessageCount_append, userMessageCount_user_message]
  | wsError err => simp only [step, done, SendInv]; split_ifs <;> simp_all
  | wsClose code r => simp only [step, done, SendInv]; split_ifs <;> simp_all
  | fire t =>
      cases t <;> simp only [step, onGrace, done, SendInv] <;> split_ifs <;>
        simp_all [userMessageCount_append, userMessageCount_user_message]

theorem start_sendInv (cfg : Config) (store : Store) (chatId text : String) :
    SendInv (start cfg store chatId text) := by
  simp [SendInv, start, userMessageCount]

theorem runEvents_invariant_on (P : State → Prop) (A : Event → Prop)
    (hstep : ∀ s e, A e → P s → P (step s e))
    (s : State) (evs : List Event) (hA : ∀ e ∈ evs, A e) (h : P s) : P (runEvents s evs) := by
  induction evs generalizing s with
  | nil => simpa [runEvents] using h
  | cons e rest ih =>
      exact ih (step s e) (fun x hx => hA x (List.mem_cons_of_mem _ hx))
        (hstep s e (hA e (List.mem_cons_self _ _)) h)

theorem step_deadlineInv (s : State) (e : Event) (he : isAgentActivity e = false)
    (h : DeadlineInv s) : DeadlineInv (step s e) := by
  rcases h with ⟨h1, h2, h3, h4⟩ | ⟨h1, h2⟩
  · cases e with
    | wsOpen => simp only [step]; split_ifs <;> simp [DeadlineInv, onOpen, h1, h2, h3, h4]
    | wsMessage d => simp [isAgentActivity] at he
    | wsError err => simp [isAgentActivity] at he
    | wsClose code r => simp [isAgentActivity] at he
    | fire t =>
        cases t <;> simp only [step, onGrace, done] <;> split_ifs <;>
          simp_all [DeadlineInv]
  · have := step_of_settled s e h1
    exact Or.inr ⟨this.1, this.2.trans h2⟩

/-- C1: whatever events are delivered to one `waitForAgentResponse` run, `resolve` and
`reject` are together called at most once, so the run never yields both a reply and a
failure, nor two outcomes of one kind. -/
theorem at_most_one_outcome (cfg : Config) (store : Store) (chatId text : String)
    (evs : List Event) :
    (waitForAgentResponse cfg store chatId text evs).outcomes.length ≤ 1 ∧
    ¬ (∃ r f, Outcome.Reply r ∈ (waitForAgentResponse cfg store chatId text evs).outcomes ∧
        Outcome.Failure f ∈ (waitForAgentResponse cfg store chatId text evs).outcomes) := by
  have h := (run_settleInv cfg store chatId text evs).2
  refine ⟨h, ?_⟩
  rintro ⟨r, f, hr, hf⟩
  match hl : (waitForAgentResponse cfg store chatId text evs).outcomes with
  | [] => simp [hl] at hr
  | [o] =>
      rw [hl] at hr hf
      simp at hr hf
      rw [← hr] at hf
      cases hf
  | _ :: _ :: _ => simp [hl] at h

/-- C7: whatever events are delivered to one `waitForAgentResponse` run, at most one
`user_message` frame is passed to `ws.send`, whether the ready-event path or the 500 ms timer
path fires, in any order and with any number of ready-class events. -/
theorem at_most_one_user_message (cfg : Config) (store : Store) (chatId text : String)
    (evs : List Event) :
    userMessageCount (waitForAgentResponse cfg store chatId text evs).wsSent ≤ 1 :=
  (runEvents_invariant SendInv step_sendInv _ evs (start_sendInv cfg store chatId text)).2

/-- C3 (as the code has it): when only `open` events and timer firings precede the firing of
the deadline timer (no agent event, transport error or close), the run's only outcome,
whatever follows, is the failure `Timed out waiting for ElevenLabs response`; it is never a
reply. -/
theorem deadline_gives_timeout_failure (cfg : Config) (store : Store) (chatId text : String)
    (pre post : List Event) (hpre : ∀ e ∈ pre, isAgentActivity e = false) :
    (waitForAgentResponse cfg store chatId text
        (pre ++ Event.fire Timer.deadline :: post)).outcomes =
      [Outcome.Failure "Timed out waiting for ElevenLabs response"] ∧
    ∀ r, (waitForAgentResponse cfg store chatId text
        (pre ++ Event.fire Timer.deadline :: post)).outcome ≠ some (Outcome.Reply r) := by
  have h0 : DeadlineInv (start cfg store chatId text) := by simp [DeadlineInv, start]
  have h1 : DeadlineInv (runEvents (start cfg store chatId text) pre) :=
    runEvents_invariant_on DeadlineInv (fun e => isAgentActivity e = false)
      step_deadlineInv _ pre hpre h0
  have h2 : (step (runEvents (start cfg store chatId text) pre) (Event.fire Timer.deadline)).settled
        = true ∧
      (step (runEvents (start cfg store chatId text) pre) (Event.fire Timer.deadline)).outcomes =
        [Outcome.Failure "Timed out waiting for ElevenLabs response"] := by
    rcases h1 with ⟨a, b, c, d⟩ | ⟨a, b⟩
    · simp [step, done, a, b, d]
    · have := step_of_settled _ (Event.fire Timer.deadline) a
      exact ⟨this.1, this.2.trans b⟩
  have h3 := runEvents_of_settled _ post h2.1
  have h4 : (waitForAgentResponse cfg store chatId text
        (pre ++ Event.fire Timer.deadline :: post)).outcomes =
      [Outcome.Failure "Timed out waiting for ElevenLabs response"] := by
    simp only [waitForAgentResponse, runEvents_append, runEvents_cons]
    exact h3.2.trans h2.2
  refine ⟨h4, ?_⟩
  intro r
  simp [State.outcome, h4]

/-- C3, witness: the socket opens, the 500 ms timer fires, then the deadline fires. -/
theorem deadline_gives_timeout_failure_witness :
    (∀ e ∈ [Event.wsOpen, Event.fire Timer.grace], isAgentActivity e = false) ∧
    ((waitForAgentResponse defaultConfig [] "42" "hi"
        ([Event.wsOpen, Event.fire Timer.grace] ++ Event.fire Timer.deadline :: [])).outcomes =
      [Outcome.Failure "Timed out waiting for ElevenLabs response"] ∧
    ∀ r, (waitForAgentResponse defaultConfig [] "42" "hi"
        ([Event.wsOpen, Event.fire Timer.grace] ++ Event.fire Timer.deadline :: [])).outcome ≠
          some (Outcome.Reply r)) :=
  ⟨by decide, deadline_gives_timeout_failure defaultConfig [] "42" "hi"
    [Event.wsOpen, Event.fire Timer.grace] [] (by decide)⟩

/-- C3, counterexample: with no activity before the deadline fires, the reason of the
failure is not the text `timeout`. -/
theorem deadline_reason_is_not_timeout :
    (waitForAgentResponse defaultConfig [] "42" "hi" [Event.fire Timer.deadline]).outcome ≠
      some (Outcome.Failure "timeout") := by
  decide

/-! ## Protocol errors -/

/-- The handler's effect on the outcomes when an `error` event reaches an unsettled run. -/
theorem onMessage_error_outcomes (s : State) (ev : AgentEvent) (htype : ev.type = some "error")
    (hs : s.settled = false) :
    (onMessage s ev).settled = true ∧
    (onMessage s ev).outcomes = s.outcomes ++
      [Outcome.Failure ((jsOr ev.message (some "ElevenLabs returned an error")).getD "")] := by
  simp only [onMessage, done, htype]
  split_ifs <;> simp_all

/-- C8 (as the code has it): an event of type `error` that reaches an unsettled run, with or
without fragments accumulated, makes the run's only outcome, whatever follows, a failure and
not a reply; its reason is exactly the event's message when that is a non-empty string, and
the fixed text `ElevenLabs returned an error` when the message is absent or empty. -/
theorem error_event_fails (cfg : Config) (store : Store) (chatId text : String)
    (pre post : List Event) (ev : AgentEvent) (htype : ev.type = some "error")
    (hunsettled : (waitForAgentResponse cfg store chatId text pre).settled = false) :
    (∀ m, ev.message = some m → m ≠ "" →
      (waitForAgentResponse cfg store chatId text
        (pre ++ Event.wsMessage (some ev) :: post)).outcomes = [Outcome.Failure m]) ∧
    (ev.message = none ∨ ev.message = some "" →
      (waitForAgentResponse cfg store chatId text
        (pre ++ Event.wsMessage (some ev) :: post)).outcomes =
          [Outcome.Failure "ElevenLabs returned an error"]) := by
  have hinv := run_settleInv cfg store chatId text pre
  have hout := hinv.1 hunsettled
  have hmsg := onMessage_error_outcomes _ ev htype hunsettled
  have hpost := runEvents_of_settled
    (step (waitForAgentResponse cfg store chatId text pre) (Event.wsMessage (some ev))) post
    (by simpa [step] using hmsg.1)
  have hall : (waitForAgentResponse cfg store chatId text
        (pre ++ Event.wsMessage (some ev) :: post)).outcomes =
      [Outcome.Failure ((jsOr ev.message (some "ElevenLabs returned an error")).getD "")] := by
    have : waitForAgentResponse cfg store chatId text (pre ++ Event.wsMessage (some ev) :: post) =
        runEvents (step (waitForAgentResponse cfg store chatId text pre)
          (Event.wsMessage (some ev))) post := by
      simp [waitForAgentResponse, runEvents_append, runEvents_cons]
    rw [this, hpost.2]
    simp only [step]
    rw [hmsg.2, hout]
    rfl
  constructor
  · intro m hm hne
    rw [hall, hm]
    simp [jsOr, isTruthy, hne]
  · rintro (hm | hm) <;> rw [hall, hm] <;> simp [jsOr, isTruthy]

/-- C8, witness: an `error` event with message `quota exceeded` after a fragment. -/
theorem error_event_fails_witness :
    (errorEvent "quota exceeded").type = some "error" ∧
    (waitForAgentResponse defaultConfig [] "42" "hi"
      [Event.wsOpen, readyEvent "abc", fragmentEvent "Hel"]).settled = false ∧
    (waitForAgentResponse defaultConfig [] "42" "hi"
      ([Event.wsOpen, readyEvent "abc", fragmentEvent "Hel"] ++
        Event.wsMessage (some (errorEvent "quota exceeded")) :: [])).outcomes =
      [Outcome.Failure "quota exceeded"] :=
  ⟨by decide, by decide,
    (error_event_fails defaultConfig [] "42" "hi"
      [Event.wsOpen, readyEvent "abc", fragmentEvent "Hel"] []
      (errorEvent "quota exceeded") (by decide) (by decide)).1 "quota exceeded" rfl (by decide)⟩

/-- C8, counterexample: an `error` event whose message is the empty string fails the run with
the fixed default text, not with the event's message. -/
theorem error_event_empty_message_reason :
    (waitForAgentResponse defaultConfig [] "42" "hi"
        [Event.wsOpen, Event.wsMessage (some (errorEvent ""))]).settled = true ∧
    (errorEvent "").type = some "error" ∧ (errorEvent "").message = some "" ∧
    (waitForAgentResponse defaultConfig [] "42" "hi" [Event.wsOpen]).settled = false ∧
    (waitForAgentResponse defaultConfig [] "42" "hi"
        [Event.wsOpen, Event.wsMessage (some (errorEvent ""))]).outcome ≠
      some (Outcome.Failure "") := by
  decide

/-! ## Events after settlement -/

/-- C10, the code at the failing input: the quiet timer has resolved the run with `Hi`; a
further `agent_response` message that carries a conversation id then overwrites the session
map, extends the accumulated text and schedules a new quiet timer. Likewise, after a
deadline failure with no user message sent, a ready-class message sets the
user-message-sent flag and passes a `user_message` frame to `ws.send`. -/
theorem message_after_settlement_changes_state :
    (waitForAgentResponse defaultConfig [] "42" "hi"
      [Event.wsOpen, readyEvent "abc", fragmentEvent "Hi", Event.fire Timer.response]).settled
        = true ∧
    (waitForAgentResponse defaultConfig [] "42" "hi"
      [Event.wsOpen, readyEvent "abc", fragmentEvent "Hi", Event.fire Timer.response]).outcomes
        = [Outcome.Reply "Hi"] ∧
    (waitForAgentResponse defaultConfig [] "42" "hi"
      [Event.wsOpen, readyEvent "abc", fragmentEvent "Hi", Event.fire Timer.response]).sessionByChatId
        = [("42", "abc")] ∧
    (waitForAgentResponse defaultConfig [] "42" "hi"
      [Event.wsOpen, readyEvent "abc", fragmentEvent "Hi", Event.fire Timer.response,
       lateFragment]).sessionByChatId = [("42", "zzz")] ∧
    (waitForAgentResponse defaultConfig [] "42" "hi"
      [Event.wsOpen, readyEvent "abc", fragmentEvent "Hi", Event.fire Timer.response,
       lateFragment]).finalText = "Hi there" ∧
    (waitForAgentResponse defaultConfig [] "42" "hi"
      [Event.wsOpen, readyEvent "abc", fragmentEvent "Hi", Event.fire Timer.response]).responseTimer
        = false ∧
    (waitForAgentResponse defaultConfig [] "42" "hi"
      [Event.wsOpen, readyEvent "abc", fragmentEvent "Hi", Event.fire Timer.response,
       lateFragment]).responseTimer = true ∧
    (waitForAgentResponse defaultConfig [] "42" "hi"
      [Event.wsOpen, readyEvent "abc", fragmentEvent "Hi", Event.fire Timer.response,
       lateFragment]).scheduled =
      (waitForAgentResponse defaultConfig [] "42" "hi"
        [Event.wsOpen, readyEvent "abc", fragmentEvent "Hi", Event.fire Timer.response]).scheduled
        ++ [(Timer.response, 600)] ∧
    (waitForAgentResponse defaultConfig [] "42" "hi"
      [Event.wsOpen, Event.fire Timer.deadline]).settled = true ∧
    (waitForAgentResponse defaultConfig [] "42" "hi"
      [Event.wsOpen, Event.fire Timer.deadline]).userMessageSent = false ∧
    (waitForAgentResponse defaultConfig [] "42" "hi"
      [Event.wsOpen, Event.fire Timer.deadline, readyEvent "abc"]).userMessageSent = true ∧
    (waitForAgentResponse defaultConfig [] "42" "hi"
      [Event.wsOpen, Event.fire Timer.deadline, readyEvent "abc"]).wsSent =
      (waitForAgentResponse defaultConfig [] "42" "hi"
        [Event.wsOpen, Event.fire Timer.deadline]).wsSent ++ [Frame.user_message "hi"] := by
  decide

/-! ## The 500 ms timer -/

theorem wsCloseCall_closed (r : ReadyState) :
    wsCloseCall r = ReadyState.CLOSING ∨ wsCloseCall r = ReadyState.CLOSED := by
  cases r <;> simp [wsCloseCall]

theorem done_closedInv (s : State) (o : Outcome) (h : ClosedInv s) : ClosedInv (done s o) := by
  unfold ClosedInv done at *
  split_ifs with hs
  · exact h
  · intro _
    exact wsCloseCall_closed _

theorem step_closedInv (s : State) (e : Event) (h : ClosedInv s) : ClosedInv (step s e) := by
  cases e with
  | wsOpen =>
      simp only [step]; split_ifs with hc
      · intro hs
        have := h (by simpa [onOpen] using hs)
        simp [hc] at this
      · exact h
  | wsMessage d =>
      cases d with
      | none => simpa [step] using h
      | some ev =>
          simp only [step, onMessage]
          split_ifs <;>
            first
              | (apply done_closedInv; simpa [ClosedInv] using h)
              | (simpa [ClosedInv] using h)
  | wsError err => exact done_closedInv _ _ h
  | wsClose code r =>
      simp only [step]
      split_ifs
      · apply done_closedInv; simp [ClosedInv]
      · simp [ClosedInv]
  | fire t =>
      cases t <;> simp only [step, onGrace] <;> split_ifs <;>
        first
          | (apply done_closedInv; simpa [ClosedInv] using h)
          | (simpa [ClosedInv] using h)

theorem run_closedInv (cfg : Config) (store : Store) (chatId text : String) (evs : List Event) :
    ClosedInv (waitForAgentResponse cfg store chatId text evs) :=
  runEvents_invariant ClosedInv step_closedInv _ evs (by simp [ClosedInv, start])

theorem step_graceInv (text : String) (s : State) (e : Event) (he : isReadyEvent e = false)
    (h : GraceInv text s) : GraceInv text (step s e) := by
  obtain ⟨h0, h1⟩ := h
  cases e with
  | wsOpen => simp only [step]; split_ifs <;> simp_all [GraceInv, onOpen]
  | wsMessage d =>
      cases d with
      | none => simpa [step] using ⟨h0, h1⟩
      | some ev =>
          simp only [isReadyEvent] at he
          simp only [step, onMessage, done, GraceInv, he]
          split_ifs <;> simp_all
  | wsError err => simp only [step, done, GraceInv]; split_ifs <;> simp_all
  | wsClose code r => simp only [step, done, GraceInv]; split_ifs <;> simp_all
  | fire t =>
      cases t <;> simp only [step, onGrace, done, GraceInv] <;> split_ifs <;> simp_all

/-- C9 (as the code has it): the 500 ms timer is set when the run starts, with a delay that
does not depend on `REQUEST_TIMEOUT_MS`. When it fires while the socket is open, after events
among which there is no ready-class event, the run is unsettled and the user text is passed
to `ws.send` as a `user_message` frame. -/
theorem grace_timer_sends_user_text (cfg : Config) (store : Store) (chatId text : String)
    (pre : List Event)
    (hopen : (waitForAgentResponse cfg store chatId text pre).readyState = ReadyState.OPEN)
    (hpending : (waitForAgentResponse cfg store chatId text pre).graceTimer = true)
    (hready : ∀ e ∈ pre, isReadyEvent e = false) :
    (start cfg store chatId text).scheduled =
      [(Timer.deadline, cfg.REQUEST_TIMEOUT_MS), (Timer.grace, 500)] ∧
    (waitForAgentResponse cfg store chatId text pre).settled = false ∧
    userMessageCount (waitForAgentResponse cfg store chatId text pre).wsSent = 0 ∧
    (waitForAgentResponse cfg store chatId text (pre ++ [Event.fire Timer.grace])).wsSent =
      (waitForAgentResponse cfg store chatId text pre).wsSent ++ [Frame.user_message text] := by
  have hclosed := run_closedInv cfg store chatId text pre
  have hgrace : GraceInv text (waitForAgentResponse cfg store chatId text pre) :=
    runEvents_invariant_on (GraceInv text) (fun e => isReadyEvent e = false)
      (step_graceInv text) _ pre hready (by simp [GraceInv, start])
  have hsend : SendInv (waitForAgentResponse cfg store chatId text pre) :=
    runEvents_invariant SendInv step_sendInv _ pre (start_sendInv cfg store chatId text)
  have hs : (waitForAgentResponse cfg store chatId text pre).settled = false := by
    by_contra hc
    simp at hc
    have := hclosed hc
    simp [hopen] at this
  have hu := hgrace.2 hpending
  refine ⟨rfl, hs, hsend.1 hu, ?_⟩
  have : waitForAgentResponse cfg store chatId text (pre ++ [Event.fire Timer.grace]) =
      step (waitForAgentResponse cfg store chatId text pre) (Event.fire Timer.grace) := by
    simp [waitForAgentResponse, runEvents_snoc]
  rw [this]
  simp [step, onGrace, hpending, hs, hu, hopen, hgrace.1]

/-- C9, witness: the socket opens, an unparseable frame arrives, then the 500 ms timer
fires. -/
theorem grace_timer_sends_user_text_witness :
    (waitForAgentResponse defaultConfig [] "42" "hi"
      [Event.wsOpen, Event.wsMessage none]).readyState = ReadyState.OPEN ∧
    (waitForAgentResponse defaultConfig [] "42" "hi"
      [Event.wsOpen, Event.wsMessage none]).graceTimer = true ∧
    (∀ e ∈ [Event.wsOpen, Event.wsMessage none], isReadyEvent e = false) ∧
    (waitForAgentResponse defaultConfig [] "42" "hi"
      ([Event.wsOpen, Event.wsMessage none] ++ [Event.fire Timer.grace])).wsSent =
      (waitForAgentResponse defaultConfig [] "42" "hi"
        [Event.wsOpen, Event.wsMessage none]).wsSent ++ [Frame.user_message "hi"] :=
  ⟨by decide, by decide, by decide,
    (grace_timer_sends_user_text defaultConfig [] "42" "hi"
      [Event.wsOpen, Event.wsMessage none] (by decide) (by decide) (by decide)).2.2.2⟩

/-- C9, counterexample: the 500 ms timer fires while the socket is still connecting, the
socket then opens and stays open, and no ready-class event arrives. No `user_message` frame
is sent, no 500 ms timer is pending any more, and the run ends with the deadline failure
without the user text ever having been sent. -/
theorem grace_timer_before_open_never_sends :
    (waitForAgentResponse defaultConfig [] "42" "hi"
      [Event.fire Timer.grace, Event.wsOpen]).readyState = ReadyState.OPEN ∧
    (waitForAgentResponse defaultConfig [] "42" "hi"
      [Event.fire Timer.grace, Event.wsOpen]).settled = false ∧
    (waitForAgentResponse defaultConfig [] "42" "hi"
      [Event.fire Timer.grace, Event.wsOpen]).graceTimer = false ∧
    (waitForAgentResponse defaultConfig [] "42" "hi"
      [Event.fire Timer.grace, Event.wsOpen]).scheduled =
        [(Timer.deadline, 20000), (Timer.grace, 500)] ∧
    (waitForAgentResponse defaultConfig [] "42" "hi"
      [Event.fire Timer.grace, Event.wsOpen]).wsSent =
        [Frame.initiation "telegram" "telegram-assistant" "42" none] ∧
    (waitForAgentResponse defaultConfig [] "42" "hi"
      [Event.fire Timer.grace, Event.wsOpen, Event.fire Timer.grace]).wsSent =
        [Frame.initiation "telegram" "telegram-assistant" "42" none] ∧
    (waitForAgentResponse defaultConfig [] "42" "hi"
      [Event.fire Timer.grace, Event.wsOpen, Event.fire Timer.deadline]).wsSent =
        [Frame.initiation "telegram" "telegram-assistant" "42" none] ∧
    (waitForAgentResponse defaultConfig [] "42" "hi"
      [Event.fire Timer.grace, Event.wsOpen, Event.fire Timer.deadline]).outcomes =
        [Outcome.Failure "Timed out waiting for ElevenLabs response"] := by
  decide

/-! ## Fragment accumulation and the quiet timer -/

theorem step_finalText (s : State) (e : Event) :
    (step s e).finalText = (fragmentOf e).elim s.finalText (fun c => s.finalText ++ c) := by
  cases e with
  | wsOpen => simp only [step]; split_ifs <;> simp [onOpen, fragmentOf]
  | wsMessage d =>
      cases d with
      | none => simp [step, fragmentOf]
      | some ev =>
          simp only [step, onMessage, done, fragmentOf]
          split_ifs <;> simp_all
  | wsError err => simp only [step, done, fragmentOf]; split_ifs <;> simp
  | wsClose code r => simp only [step, done, fragmentOf]; split_ifs <;> simp
  | fire t =>
      cases t <;> simp only [step, onGrace, done, fragmentOf] <;> split_ifs <;> simp

theorem runEvents_finalText (s : State) (evs : List Event) :
    (runEvents s evs).finalText =
      (fragmentsOf evs).foldl (fun acc chunk => acc ++ chunk) s.finalText := by
  induction evs generalizing s with
  | nil => rfl
  | cons e rest ih =>
      rw [runEvents_cons, ih, step_finalText]
      cases h : fragmentOf e <;> simp [fragmentsOf, List.filterMap_cons, h]

theorem step_responseTimer (s : State) (e : Event) (hs : (step s e).settled = false)
    (h : s.responseTimer = true ∨ (fragmentOf e).isSome) : (step s e).responseTimer = true := by
  cases e with
  | wsOpen =>
      revert hs; simp only [step]; split_ifs <;> simp_all [onOpen, fragmentOf]
  | wsMessage d =>
      cases d with
      | none => simpa [step, fragmentOf] using h
      | some ev =>
          revert hs h
          simp only [step, onMessage, done, fragmentOf]
          split_ifs <;> simp_all
  | wsError err => revert hs; simp only [step, done]; split_ifs <;> simp_all
  | wsClose code r => revert hs; simp only [step, done]; split_ifs <;> simp_all
  | fire t =>
      revert hs h
      cases t <;> simp only [step, onGrace, done, fragmentOf] <;> split_ifs <;> simp_all

theorem runEvents_responseTimer (s : State) (evs : List Event)
    (hs : (runEvents s evs).settled = false) (hfrag : fragmentsOf evs ≠ []) :
    (runEvents s evs).responseTimer = true := by
  induction evs using List.reverseRecOn with
  | nil => simp [fragmentsOf] at hfrag
  | append_singleton pre e ih =>
      rw [runEvents_snoc] at hs ⊢
      apply step_responseTimer _ _ hs
      cases hf : fragmentOf e with
      | some c => exact Or.inr rfl
      | none =>
          left
          apply ih (settled_of_step_unsettled _ _ hs)
          simpa [fragmentsOf, List.filterMap_append, hf] using hfrag

theorem replyText_ne_empty (finalText : String) : replyText finalText ≠ "" := by
  unfold replyText
  simp only
  split_ifs with h
  · decide
  · exact h

/-- C2: when at least one `agent_response` fragment has been received and the run is still
unsettled, the firing of the quiet timer resolves the run, and whatever follows its only
outcome is the reply `r`, where `r` is the trimmed concatenation of the fragment texts in
arrival order, or the text `I am here. Can you rephrase that?` when that trimmed
concatenation is empty; `r` is never the empty string. -/
theorem quiet_timer_resolves (cfg : Config) (store : Store) (chatId text : String)
    (evs post : List Event) (hfrag : fragmentsOf evs ≠ [])
    (hunsettled : (waitForAgentResponse cfg store chatId text evs).settled = false) :
    ∃ r, (waitForAgentResponse cfg store chatId text
            (evs ++ Event.fire Timer.response :: post)).outcomes = [Outcome.Reply r] ∧
      (jsTrim (concatFragments (fragmentsOf evs)) ≠ "" →
        r = jsTrim (concatFragments (fragmentsOf evs))) ∧
      (jsTrim (concatFragments (fragmentsOf evs)) = "" →
        r = "I am here. Can you rephrase that?") ∧
      r ≠ "" := by
  have htimer := runEvents_responseTimer _ evs hunsettled hfrag
  have hout := (run_settleInv cfg store chatId text evs).1 hunsettled
  have htext : (waitForAgentResponse cfg store chatId text evs).finalText =
      concatFragments (fragmentsOf evs) := by
    simp [waitForAgentResponse, runEvents_finalText, concatFragments, start]
  have hstep : (step (waitForAgentResponse cfg store chatId text evs)
        (Event.fire Timer.response)).settled = true ∧
      (step (waitForAgentResponse cfg store chatId text evs)
        (Event.fire Timer.response)).outcomes =
        [Outcome.Reply (replyText (concatFragments (fragmentsOf evs)))] := by
    simp only [waitForAgentResponse] at htimer hunsettled hout htext ⊢
    simp [step, done, htimer, hunsettled, hout, htext]
  have hpost := runEvents_of_settled _ post hstep.1
  refine ⟨replyText (concatFragments (fragmentsOf evs)), ?_, ?_, ?_, replyText_ne_empty _⟩
  · have : waitForAgentResponse cfg store chatId text
          (evs ++ Event.fire Timer.response :: post) =
        runEvents (step (waitForAgentResponse cfg store chatId text evs)
          (Event.fire Timer.response)) post := by
      simp [waitForAgentResponse, runEvents_append, runEvents_cons]
    rw [this, hpost.2, hstep.2]
  · intro h
    simp [replyText, h]
  · intro h
    simp [replyText, h, fallbackReply]

/-- C2, witness: the fragments `Hel` and `lo` resolve to the reply `Hello`. -/
theorem quiet_timer_resolves_witness :
    fragmentsOf [Event.wsOpen, readyEvent "abc", fragmentEvent "Hel", fragmentEvent "lo"] =
      ["Hel", "lo"] ∧
    (waitForAgentResponse defaultConfig [] "42" "hi"
      [Event.wsOpen, readyEvent "abc", fragmentEvent "Hel", fragmentEvent "lo"]).settled
        = false ∧
    jsTrim (concatFragments ["Hel", "lo"]) = "Hello" ∧
    ∃ r, (waitForAgentResponse defaultConfig [] "42" "hi"
            ([Event.wsOpen, readyEvent "abc", fragmentEvent "Hel", fragmentEvent "lo"] ++
              Event.fire Timer.response :: [])).outcomes = [Outcome.Reply r] ∧
      (jsTrim (concatFragments (fragmentsOf
          [Event.wsOpen, readyEvent "abc", fragmentEvent "Hel", fragmentEvent "lo"])) ≠ "" →
        r = jsTrim (concatFragments (fragmentsOf
          [Event.wsOpen, readyEvent "abc", fragmentEvent "Hel", fragmentEvent "lo"]))) ∧
      (jsTrim (concatFragments (fragmentsOf
          [Event.wsOpen, readyEvent "abc", fragmentEvent "Hel", fragmentEvent "lo"])) = "" →
        r = "I am here. Can you rephrase that?") ∧
      r ≠ "" :=
  ⟨by decide, by decide, by decide,
    quiet_timer_resolves defaultConfig [] "42" "hi"
      [Event.wsOpen, readyEvent "abc", fragmentEvent "Hel", fragmentEvent "lo"] []
      (by decide) (by decide)⟩

/-! ## Session continuity across runs -/

theorem mapGet_mapSet (m : Store) (k v k2 : String) :
    mapGet (mapSet m k v) k2 = if k = k2 then some v else mapGet m k2 := by
  induction m with
  | nil => simp [mapSet, mapGet]
  | cons p rest ih =>
      obtain ⟨k0, v0⟩ := p
      by_cases h0 : k0 = k
      · subst h0
        by_cases h2 : k0 = k2 <;> simp [mapSet, mapGet, h2]
      · by_cases h2 : k0 = k2
        · subst h2
          have : ¬ k = k0 := fun h => h0 h.symm
          simp [mapSet, mapGet, h0, this]
        · simp [mapSet, mapGet, h0, h2, ih]

theorem isTruthy_some (id : String) : isTruthy (some id) = true ↔ id ≠ "" := by
  simp [isTruthy]

/-- The expression of lines 90-93 finds an id exactly when the specification's lookup does,
and then the same one. -/
theorem reportedId_eq (ev : AgentEvent) :
    reportedId ev =
      if isTruthy (conversationIdOf ev) then some ((conversationIdOf ev).getD "") else none := by
  obtain ⟨ty, a, b, c, d, e, f⟩ := ev
  simp only [reportedId, conversationIdOf, jsOr]
  cases a with
  | none =>
      cases b with
      | none => cases c <;> simp [isTruthy, Option.filter]
      | some y =>
          by_cases hy : y = ""
          · cases c <;> simp [isTruthy, Option.filter, hy]
          · simp [isTruthy, hy]
  | some x =>
      by_cases hx : x = ""
      · cases b with
        | none => cases c <;> simp [isTruthy, Option.filter, hx]
        | some y =>
            by_cases hy : y = ""
            · cases c <;> simp [isTruthy, Option.filter, hx, hy]
            · simp [isTruthy, hx, hy]
      · simp [isTruthy, hx]

theorem reportedId_ne_empty (ev : AgentEvent) (id : String) (h : reportedId ev = some id) :
    id ≠ "" := by
  rw [reportedId_eq] at h
  split_ifs at h with ht
  cases hc : conversationIdOf ev with
  | none => simp [hc, isTruthy] at ht
  | some x =>
      simp [hc] at h ht
      subst h
      simpa [isTruthy] using ht

theorem step_chatId (s : State) (e : Event) : (step s e).chatId = s.chatId := by
  cases e with
  | wsOpen => simp only [step]; split_ifs <;> simp [onOpen]
  | wsMessage d =>
      cases d with
      | none => simp [step]
      | some ev => simp only [step, onMessage, done]; split_ifs <;> simp
  | wsError err => simp only [step, done]; split_ifs <;> simp
  | wsClose code r => simp only [step, done]; split_ifs <;> simp
  | fire t => cases t <;> simp only [step, onGrace, done] <;> split_ifs <;> simp

theorem step_sessionByChatId (s : State) (e : Event) :
    (step s e).sessionByChatId =
      (eventReportedId e).elim s.sessionByChatId (fun id => mapSet s.sessionByChatId s.chatId id)
    := by
  cases e with
  | wsOpen => simp only [step]; split_ifs <;> simp [onOpen, eventReportedId]
  | wsMessage d =>
      cases d with
      | none => simp [step, eventReportedId]
      | some ev =>
          simp only [step, onMessage, done, eventReportedId, reportedId_eq]
          split_ifs <;> simp
  | wsError err => simp only [step, done, eventReportedId]; split_ifs <;> simp
  | wsClose code r => simp only [step, done, eventReportedId]; split_ifs <;> simp
  | fire t =>
      cases t <;> simp only [step, onGrace, done, eventReportedId] <;> split_ifs <;> simp

theorem runEvents_chatId (s : State) (evs : List Event) : (runEvents s evs).chatId = s.chatId := by
  induction evs generalizing s with
  | nil => rfl
  | cons e rest ih => rw [runEvents_cons, ih, step_chatId]

theorem option_or_assoc (a b c : Option String) : (a.or b).or c = a.or (b.or c) := by
  cases a <;> simp

theorem reportedIds_cons (e : Event) (rest : List Event) :
    reportedIds (e :: rest) = (eventReportedId e).toList ++ reportedIds rest := by
  cases h : eventReportedId e <;> simp [reportedIds, List.filterMap_cons, h]

theorem runEvents_mapGet (s : State) (evs : List Event) (c : String) :
    mapGet (runEvents s evs).sessionByChatId c =
      if s.chatId = c then (reportedIds evs).getLast?.or (mapGet s.sessionByChatId c)
      else mapGet s.sessionByChatId c := by
  induction evs generalizing s with
  | nil => simp [runEvents_nil, reportedIds]
  | cons e rest ih =>
      rw [runEvents_cons, ih, step_chatId, step_sessionByChatId, reportedIds_cons]
      by_cases hc : s.chatId = c
      · cases h : eventReportedId e with
        | none => simp [hc]
        | some id =>
            simp only [hc, Option.elim, if_true, mapGet_mapSet, Option.toList,
              List.getLast?_append, List.getLast?_singleton]
            cases (reportedIds rest).getLast? <;> simp
      · cases h : eventReportedId e with
        | none => simp [hc]
        | some id => simp [hc, mapGet_mapSet]

theorem storeAfterRuns_cons (cfg : Config) (st : Store) (r : Run) (runs : List Run) :
    storeAfterRuns cfg st (r :: runs) =
      storeAfterRuns cfg (waitForAgentResponse cfg st r.chatId r.text r.events).sessionByChatId
        runs := rfl

theorem storeAfterRuns_mapGet (cfg : Config) (st : Store) (runs : List Run) (c : String) :
    mapGet (storeAfterRuns cfg st runs) c = (lastReportedId c runs).or (mapGet st c) := by
  induction runs generalizing st with
  | nil => simp [storeAfterRuns, lastReportedId]
  | cons r rest ih =>
      rw [storeAfterRuns_cons, ih]
      have hrun : mapGet (waitForAgentResponse cfg st r.chatId r.text r.events).sessionByChatId c =
          if r.chatId = c then (reportedIds r.events).getLast?.or (mapGet st c)
          else mapGet st c := by
        simpa [waitForAgentResponse, start] using
          runEvents_mapGet (start cfg st r.chatId r.text) r.events c
      rw [hrun]
      by_cases hc : r.chatId = c
      · simp [lastReportedId, List.filter_cons, hc, List.flatMap_cons, option_or_assoc]
      · simp [lastReportedId, List.filter_cons, hc]

theorem lastReportedId_ne_empty (c : String) (runs : List Run) (id : String)
    (h : lastReportedId c runs = some id) : id ≠ "" := by
  have hmem := List.mem_of_getLast?_eq_some h
  simp only [List.mem_flatMap, reportedIds, List.mem_filterMap] at hmem
  obtain ⟨r, _, e, _, he⟩ := hmem
  cases e with
  | wsMessage d =>
      cases d with
      | none => simp [eventReportedId] at he
      | some ev => exact reportedId_ne_empty ev id (by simpa [eventReportedId] using he)
  | wsOpen => simp [eventReportedId] at he
  | wsError err => simp [eventReportedId] at he
  | wsClose code r => simp [eventReportedId] at he
  | fire t => simp [eventReportedId] at he

/-- C5: start from the empty session map and let any sequence of runs, for any chats and
under any events, run one after the other. The initiation frame that the next run for chat
`c` sends on `open` (whether or not its 500 ms timer fired first) carries as
`conversation_id` the id reported by the most recent event of the earlier runs for `c` that
carried one (looked up under `conversation_initiation_metadata_event.conversation_id`, then
`conversation_metadata_event.conversation_id`, then `conversation_id`), and carries no
`conversation_id` when no such event carried one. -/
theorem initiation_carries_last_reported_id (cfg : Config) (runs : List Run)
    (c text : String) (graceFirst : Bool) :
    (waitForAgentResponse cfg (storeAfterRuns cfg [] runs) c text
      ((if graceFirst then [Event.fire Timer.grace] else []) ++ [Event.wsOpen])).wsSent =
      [Frame.initiation "telegram" cfg.ELEVENLABS_ORIGINATOR c (lastReportedId c runs)] := by
  have hget := storeAfterRuns_mapGet cfg [] runs c
  simp only [mapGet, Option.or_none] at hget
  have hsome : (if isTruthy (lastReportedId c runs) then lastReportedId c runs else none) =
      lastReportedId c runs := by
    cases h : lastReportedId c runs with
    | none => simp
    | some id => simp [isTruthy, lastReportedId_ne_empty c runs id h]
  cases graceFirst <;>
    simp [waitForAgentResponse, runEvents, step, start, onOpen, onGrace, hget, hsome]

/-! ## The dispatcher -/

theorem jsOr_text_default (t : String) : (jsOr (some t) (some "")).getD "" = t := by
  by_cases h : t = "" <;> simp [jsOr, isTruthy, h]

/-- C6: for an update whose message has a chat id and a text that is not empty once trimmed,
every `sendTelegramMessage` call of `processTelegramUpdate` goes to that chat and its text is
either the reply the session resolved with or the fixed apology. When the session fails with
a reason, the one call made sends the apology to that chat; the reason is only logged, and
(unless it is itself the apology text) is not sent. -/
theorem dispatch_sends_reply_or_apology (cfg : Config) (store : Store) (update : Update)
    (env : Env) (message : Message) (chat : Chat) (id : Int) (t : String)
    (hmessage : update.message = some message) (hchat : message.chat = some chat)
    (hid : chat.id = some id) (hid0 : id ≠ 0)
    (htext : message.text = some t) (htrim : jsTrim t ≠ "") :
    (∀ call ∈ (processTelegramUpdate cfg store update env).sendCalls,
      call.1 = toString id ∧
      ((waitForAgentResponse cfg store (toString id) (jsTrim t) env.events).outcome =
          some (Outcome.Reply call.2) ∨
        call.2 = "Sorry, I hit an issue processing that. Please try again in a moment.")) ∧
    (∀ reason,
      (waitForAgentResponse cfg store (toString id) (jsTrim t) env.events).outcome =
          some (Outcome.Failure reason) →
      (processTelegramUpdate cfg store update env).sendCalls =
          [(toString id,
            "Sorry, I hit an issue processing that. Please try again in a moment.")] ∧
      (processTelegramUpdate cfg store update env).logged = [reason] ∧
      (reason ≠ "Sorry, I hit an issue processing that. Please try again in a moment." →
        ∀ call ∈ (processTelegramUpdate cfg store update env).sendCalls, call.2 ≠ reason)) := by
  have hp : processTelegramUpdate cfg store update env =
      relayOutcome
        (waitForAgentResponse cfg store (toString id) (jsTrim t) env.events).sessionByChatId
        (toString id) env
        (waitForAgentResponse cfg store (toString id) (jsTrim t) env.events).outcome := by
    simp [processTelegramUpdate, hmessage, hchat, hid, hid0, htext, jsOr_text_default, htrim]
  rw [hp]
  cases hout : (waitForAgentResponse cfg store (toString id) (jsTrim t) env.events).outcome with
  | none => simp [relayOutcome]
  | some o =>
      cases o with
      | Failure reason =>
          simp only [relayOutcome, handlingError, apologyText]
          refine ⟨?_, ?_⟩
          · intro call hcall
            simp at hcall
            subst hcall
            simp
          · intro reason2 h2
            simp at h2
            subst h2
            refine ⟨by simp, by simp, ?_⟩
            intro hne call hcall
            simp at hcall
            subst hcall
            exact fun h => hne h.symm
      | Reply reply =>
          cases hsend : env.sendError 0 with
          | none => simp [relayOutcome, hsend]
          | some e =>
              simp only [relayOutcome, hsend, handlingError, apologyText]
              refine ⟨?_, by simp⟩
              intro call hcall
              simp at hcall
              rcases hcall with h | h <;> subst h <;> simp

/-- C6, witness: chat 42 sends ` hi `, the agent stays silent and the deadline fails the
session; the apology, and only it, is sent to chat 42, and the reason is logged. -/
theorem dispatch_sends_reply_or_apology_witness :
    (42 : Int) ≠ 0 ∧ jsTrim " hi " ≠ "" ∧
    (waitForAgentResponse defaultConfig [] (toString (42 : Int)) (jsTrim " hi ")
      envSilent.events).outcome =
        some (Outcome.Failure "Timed out waiting for ElevenLabs response") ∧
    (processTelegramUpdate defaultConfig [] (sampleUpdate 6 " hi ") envSilent).sendCalls =
      [(toString (42 : Int),
        "Sorry, I hit an issue processing that. Please try again in a moment.")] ∧
    (processTelegramUpdate defaultConfig [] (sampleUpdate 6 " hi ") envSilent).logged =
      ["Timed out waiting for ElevenLabs response"] :=
  ⟨by decide, by decide, by decide,
    ((dispatch_sends_reply_or_apology defaultConfig [] (sampleUpdate 6 " hi ") envSilent
      { chat := some { id := some 42 }, text := some " hi " } { id := some 42 } 42 " hi "
      rfl rfl rfl (by decide) rfl (by decide)).2
        "Timed out waiting for ElevenLabs response" (by decide)).1,
    ((dispatch_sends_reply_or_apology defaultConfig [] (sampleUpdate 6 " hi ") envSilent
      { chat := some { id := some 42 }, text := some " hi " } { id := some 42 } 42 " hi "
      rfl rfl rfl (by decide) rfl (by decide)).2
        "Timed out waiting for ElevenLabs response" (by decide)).2.1⟩

/-! ## The polling loop -/

theorem step_eraseStore (s : State) (e : Event) :
    eraseStore (step (eraseStore s) e) = eraseStore (step s e) := by
  cases e with
  | wsOpen => simp only [step, eraseStore]; split_ifs <;> simp [onOpen]
  | wsMessage d =>
      cases d with
      | none => simp [step, eraseStore]
      | some ev => simp only [step, onMessage, done, eraseStore]; split_ifs <;> simp
  | wsError err => simp only [step, done, eraseStore]; split_ifs <;> simp
  | wsClose code r => simp only [step, done, eraseStore]; split_ifs <;> simp
  | fire t =>
      cases t <;> simp only [step, onGrace, done, eraseStore] <;> split_ifs <;> simp

theorem runEvents_eraseStore (s : State) (evs : List Event) :
    eraseStore (runEvents (eraseStore s) evs) = eraseStore (runEvents s evs) := by
  induction evs generalizing s with
  | nil => simp [runEvents_nil, eraseStore]
  | cons e rest ih =>
      rw [runEvents_cons, runEvents_cons, ← ih (step (eraseStore s) e), step_eraseStore, ih]

/-- The outcome of a run does not depend on the session map it starts from. -/
theorem waitForAgentResponse_outcome_store (cfg : Config) (st1 st2 : Store)
    (chatId text : String) (evs : List Event) :
    (waitForAgentResponse cfg st1 chatId text evs).outcome =
      (waitForAgentResponse cfg st2 chatId text evs).outcome := by
  have h1 := runEvents_eraseStore (start cfg st1 chatId text) evs
  have h2 := runEvents_eraseStore (start cfg st2 chatId text) evs
  have h0 : eraseStore (start cfg st1 chatId text) = eraseStore (start cfg st2 chatId text) := by
    simp [eraseStore, start]
  rw [h0] at h1
  have h3 := h1.symm.trans h2
  have h4 : (eraseStore (waitForAgentResponse cfg st1 chatId text evs)).outcomes =
      (eraseStore (waitForAgentResponse cfg st2 chatId text evs)).outcomes := by
    simp only [waitForAgentResponse]
    rw [h3]
  simpa [State.outcome, eraseStore] using congrArg List.head? h4

theorem relayOutcome_completion (st1 st2 : Store) (chatId : String) (env : Env)
    (o : Option Outcome) :
    (relayOutcome st1 chatId env o).completion = (relayOutcome st2 chatId env o).completion := by
  cases o with
  | none => rfl
  | some o =>
      cases o with
      | Failure reason => rfl
      | Reply reply => simp only [relayOutcome]; cases env.sendError 0 <;> rfl

/-- How a dispatch ends does not depend on the session map it starts from. -/
theorem processTelegramUpdate_completion (cfg : Config) (store : Store) (update : Update)
    (env : Update → Env) :
    (processTelegramUpdate cfg store update (env update)).completion =
      dispatchCompletion cfg env update := by
  obtain ⟨uid, m⟩ := update
  cases m with
  | none => rfl
  | some message =>
      obtain ⟨chat, text⟩ := message
      cases chat with
      | none => rfl
      | some chat =>
          obtain ⟨id⟩ := chat
          cases id with
          | none => rfl
          | some id =>
              simp only [dispatchCompletion, processTelegramUpdate]
              split_ifs
              · rfl
              · rfl
              · rw [waitForAgentResponse_outcome_store cfg store []]
                exact relayOutcome_completion _ _ _ _ _

theorem processBatch_requests (cfg : Config) (env : Update → Env) (p : Poller)
    (updates : List Update) : (processBatch cfg env p updates).1.requests = p.requests := by
  induction updates generalizing p with
  | nil => rfl
  | cons u rest ih =>
      simp only [processBatch]
      split
      · rw [ih]
      · rfl

/-- The `for` loop up to the last update whose processing it starts: the updates before it
are dispatched to the end, and it is either the last of the batch or one whose dispatch
throws. The cursor is then one past that update, and the loop has ended without being
stuck. -/
theorem processBatch_cursor (cfg : Config) (env : Update → Env) (p : Poller)
    (pre rest : List Update) (u : Update)
    (hpre : ∀ x ∈ pre, dispatchCompletion cfg env x = Completion.returned)
    (hu : (dispatchCompletion cfg env u = Completion.returned ∧ rest = []) ∨
      ∃ msg, dispatchCompletion cfg env u = Completion.threw msg) :
    (processBatch cfg env p (pre ++ u :: rest)).1.updateOffset = u.update_id + 1 ∧
    (processBatch cfg env p (pre ++ u :: rest)).2 ≠ Completion.pending := by
  induction pre generalizing p with
  | nil =>
      simp only [List.nil_append, processBatch]
      rcases hu with ⟨h, hrest⟩ | ⟨msg, h⟩
      · rw [processTelegramUpdate_completion, h, hrest]
        simp [processBatch]
      · rw [processTelegramUpdate_completion, h]
        simp
  | cons x pre ih =>
      simp only [List.cons_append, processBatch]
      rw [processTelegramUpdate_completion, hpre x (List.mem_cons_self _ _)]
      exact ih _ (fun y hy => hpre y (List.mem_cons_of_mem _ hy))

theorem pollTurn_requests (cfg : Config) (env : Update → Env)
    (getUpdates : Nat → Except String (List Update)) (p : Poller) :
    (pollTurn cfg env getUpdates p).1.requests = p.requests ++ [p.updateOffset] := by
  unfold pollTurn
  cases h : getUpdates p.updateOffset with
  | error e => simp
  | ok updates =>
      have hb := processBatch_requests cfg env
        { p with requests := p.requests ++ [p.updateOffset] } updates
      simp only
      cases hpb : processBatch cfg env
          { p with requests := p.requests ++ [p.updateOffset] } updates with
      | mk p1 c =>
          rw [hpb] at hb
          cases c <;> simpa using hb

theorem pollTurn_cursor (cfg : Config) (env : Update → Env)
    (getUpdates : Nat → Except String (List Update)) (p : Poller)
    (pre rest : List Update) (u : Update)
    (hbatch : getUpdates p.updateOffset = Except.ok (pre ++ u :: rest))
    (hpre : ∀ x ∈ pre, dispatchCompletion cfg env x = Completion.returned)
    (hu : (dispatchCompletion cfg env u = Completion.returned ∧ rest = []) ∨
      ∃ msg, dispatchCompletion cfg env u = Completion.threw msg) :
    (pollTurn cfg env getUpdates p).1.updateOffset = u.update_id + 1 ∧
    (pollTurn cfg env getUpdates p).2 ≠ Completion.pending := by
  have hb := processBatch_cursor cfg env
    { p with requests := p.requests ++ [p.updateOffset] } pre rest u hpre hu
  unfold pollTurn
  simp only [hbatch]
  cases hpb : processBatch cfg env
      { p with requests := p.requests ++ [p.updateOffset] } (pre ++ u :: rest) with
  | mk p1 c =>
      rw [hpb] at hb
      cases c with
      | pending => simp at hb
      | returned => simpa using hb
      | threw e => simpa using hb

/-- C4 (as the code has it): a turn of the polling loop fetches a non-empty batch and
dispatches its updates in order, moving the cursor one past each update before dispatching
it. If every dispatch returns (a failed session answered with the apology does), the next
`getUpdates` request uses the offset one past the last update of the batch; if a dispatch
throws, the rest of the batch is skipped and the next request uses the offset one past the
update whose dispatch threw. -/
theorem next_request_offset (cfg : Config) (env : Update → Env)
    (getUpdates : Nat → Nat → Except String (List Update)) (p : Poller)
    (pre rest : List Update) (u : Update)
    (hbatch : getUpdates 0 p.updateOffset = Except.ok (pre ++ u :: rest))
    (hpre : ∀ x ∈ pre, dispatchCompletion cfg env x = Completion.returned)
    (hu : (dispatchCompletion cfg env u = Completion.returned ∧ rest = []) ∨
      ∃ msg, dispatchCompletion cfg env u = Completion.threw msg) :
    (pollTelegram cfg env getUpdates 2 0 p).requests =
      p.requests ++ [p.updateOffset, u.update_id + 1] := by
  have h1 := pollTurn_cursor cfg env (getUpdates 0) p pre rest u hbatch hpre hu
  have h2 := pollTurn_requests cfg env (getUpdates 0) p
  have h3 : ∀ q : Poller, (pollTelegram cfg env getUpdates 1 1 q).requests =
      q.requests ++ [q.updateOffset] := by
    intro q
    have hq := pollTurn_requests cfg env (getUpdates 1) q
    simp only [pollTelegram]
    cases hpt : pollTurn cfg env (getUpdates 1) q with
    | mk q1 c =>
        rw [hpt] at hq
        cases c <;> simpa using hq
  cases hpt : pollTurn cfg env (getUpdates 0) p with
  | mk p1 c =>
      rw [hpt] at h1 h2
      simp only at h1 h2
      have hstep : pollTelegram cfg env getUpdates 2 0 p =
          pollTelegram cfg env getUpdates 1 1 p1 := by
        rw [pollTelegram, hpt]
        cases c with
        | pending => exact absurd rfl h1.2
        | returned => rfl
        | threw e => rfl
      rw [hstep, h3, h2, h1.1]
      simp

/-- C4, witness: the batch 5, 6, 7 where the session for 6 fails and the apology is
delivered; the next request uses offset 8. -/
theorem next_request_offset_witness :
    sampleGetUpdates 0 initialPoller.updateOffset =
      Except.ok ([sampleUpdate 5 "hi", sampleUpdate 6 "hi"] ++ sampleUpdate 7 "hi" :: []) ∧
    (processTelegramUpdate defaultConfig [] (sampleUpdate 6 "hi")
      (envSixFails (sampleUpdate 6 "hi"))).logged =
        ["Timed out waiting for ElevenLabs response"] ∧
    (pollTelegram defaultConfig envSixFails sampleGetUpdates 2 0 initialPoller).requests =
      initialPoller.requests ++ [initialPoller.updateOffset, (sampleUpdate 7 "hi").update_id + 1] ∧
    (sampleUpdate 7 "hi").update_id + 1 = 8 :=
  ⟨rfl, by decide,
    next_request_offset defaultConfig envSixFails sampleGetUpdates initialPoller
      [sampleUpdate 5 "hi", sampleUpdate 6 "hi"] [] (sampleUpdate 7 "hi")
      rfl (by decide) (Or.inl ⟨by decide, rfl⟩),
    by decide⟩

/-- C4, counterexample: the batch 5, 6, 7 where `processTelegramUpdate` throws for 6 (the
session fails and the apology cannot be sent); the next request uses offset 7, not 8. -/
theorem throwing_dispatch_leaves_cursor_behind :
    (processTelegramUpdate defaultConfig [] (sampleUpdate 6 "hi")
      (envSixThrows (sampleUpdate 6 "hi"))).completion =
        Completion.threw "Telegram API HTTP 403" ∧
    (pollTelegram defaultConfig envSixThrows sampleGetUpdates 2 0 initialPoller).requests =
      [0, 7] ∧
    (pollTelegram defaultConfig envSixThrows sampleGetUpdates 2 0 initialPoller).requests ≠
      [0, 8] := by
  decide

end Nightingale

